import Mathlib

/-!
A shallow embedding of the go-libp2p-quic-transport sources (crypto.go and
transport.go) and proofs about the identity-TLS and dial paths.

Modelling conventions:
* Machine effects (randomness, the wall clock, the network, address
  resolution) are threaded as explicit oracle parameters: each call the Go
  code makes to such a collaborator consumes one oracle value.
* The external x509 library is modelled structurally: a certificate records
  the public key of the key that signed it, and chain verification against a
  one-certificate root pool checks that signature link and the root's CA
  flag.  DER encode/parse round-trips are modelled as the identity.
* The external peer-identity library models a peer ID as the canonical
  serialization of the public key (a canonical injective hash);
  MatchesPublicKey compares the derived ID with the expected one.
* Fallible Go functions become `Except Err` values; `Err` is `String`.
-/

namespace Libp2pQuic

abbrev Err := String

/-- Elliptic curves distinguished by the model (the code only ever generates
P-256 ephemeral keys, but ECDSA public keys on any curve may appear in a
remote certificate). -/
inductive Curve where
  | P256
  | P384
  | P521
  deriving DecidableEq, Repr

/-- Public keys as they appear in certificates: the three shapes the code can
meet (RSA, Ed25519, ECDSA) plus Secp256k1, present in the libp2p key protobuf
and hitting the same `default` branches as ECDSA. -/
inductive PubKey where
  | rsa (n e : Nat)
  | ed25519 (bytes : List Nat)
  | ecdsa (curve : Curve) (x y : Nat)
  | secp256k1 (point : Nat)
  deriving DecidableEq, Repr

/-- The key-type tag of the libp2p private-key protobuf (pb.KeyType). -/
inductive KeyType where
  | RSA
  | Ed25519
  | Secp256k1
  | ECDSA
  deriving DecidableEq, Repr

/-- A libp2p host private key (ic.PrivKey): the typed envelope obtained in
keyToCertificate by sk.Bytes() followed by proto.Unmarshal, with the
per-type payload already parsed (ParsePKCS1PrivateKey for RSA, the raw bytes
for Ed25519).  Only the data the embedding observes is kept: the public half
and, abstractly, the private scalar. -/
inductive HostPrivKey where
  | rsa (n e d : Nat)
  | ed25519 (pub : List Nat)
  | ecdsa (curve : Curve) (x y d : Nat)
  | secp256k1 (d : Nat)
  deriving DecidableEq, Repr

/-- The pb.KeyType tag carried by the key's serialized envelope. -/
def HostPrivKey.keyType : HostPrivKey → KeyType
  | .rsa _ _ _ => .RSA
  | .ed25519 _ => .Ed25519
  | .ecdsa _ _ _ _ => .ECDSA
  | .secp256k1 _ => .Secp256k1

/-- The public half of a host key, total over all key kinds (used by the
peer-identity collaborator, which supports every kind). -/
def HostPrivKey.publicKey : HostPrivKey → PubKey
  | .rsa n e _ => .rsa n e
  | .ed25519 pub => .ed25519 pub
  | .ecdsa c x y _ => .ecdsa c x y
  | .secp256k1 d => .secp256k1 d

/-- An x509 certificate, doubling (as in Go) as the template passed to
CreateCertificate.  `signerKey` records the public key corresponding to the
private key that signed the certificate; `publicKey` is the subject public
key.  Fields the code never sets default to the Go zero values. -/
structure Certificate where
  serialNumber : Nat := 0
  notBefore : Int := 0
  notAfter : Int := 0
  isCA : Bool := false
  basicConstraintsValid : Bool := false
  dnsNames : List String := []
  publicKey : PubKey := .ed25519 []
  signerKey : PubKey := .ed25519 []
  deriving DecidableEq, Repr

/-- Model of x509.CreateCertificate followed by x509.ParseCertificate: the
resulting certificate carries the template's fields, the given subject public
key, and is signed by the private key whose public half is `signerPub`
(the parent certificate determines the issuer name, which the code never
reads, so it is not modelled). -/
def createCertificate (tmpl : Certificate) (pub : PubKey) (signerPub : PubKey) :
    Certificate :=
  { tmpl with publicKey := pub, signerKey := signerPub }

/-- Model of chain[0].Verify with a root pool containing exactly one
certificate: the leaf's signature must check against the root's public key,
and the root must be a CA when it carries basic constraints. -/
def certVerify (c root : Certificate) : Bool :=
  c.signerKey == root.publicKey && (!root.basicConstraintsValid || root.isCA)

/-- Model of ic.UnmarshalRsaPublicKey applied to the PKIX re-serialization of
an RSA public key (the external key library accepts any well-formed RSA
key). -/
def unmarshalRsaPublicKey (n e : Nat) : Except Err PubKey :=
  .ok (.rsa n e)

/-- Model of ic.UnmarshalEd25519PublicKey on the raw public-key bytes. -/
def unmarshalEd25519PublicKey (bytes : List Nat) : Except Err PubKey :=
  .ok (.ed25519 bytes)

/-- getRemotePubKey (crypto.go): exactly two certificates; chain[0] must
verify under a pool holding only chain[1]; then chain[1]'s public key is
unmarshaled, with only RSA and Ed25519 recognised. -/
def getRemotePubKey (chain : List Certificate) : Except Err PubKey :=
  match chain with
  | [c0, c1] =>
    if certVerify c0 c1 then
      match c1.publicKey with
      | .rsa n e => unmarshalRsaPublicKey n e
      | .ed25519 bytes => unmarshalEd25519PublicKey bytes
      | _ => .error "unknown key type"
    else
      .error "certificate chain verification failed"
  | _ => .error "expected 2 certificates in the chain"

def secondsPerHour : Int := 3600

/-- certValidityPeriod = 180 * 24 * time.Hour, in seconds. -/
def certValidityPeriod : Int := 180 * 24 * secondsPerHour

/-- Model of rand.Int(rand.Reader, max): the oracle value folded into
[0, max).  A uniform oracle yields a uniform draw. -/
def randInt (oracle maxv : Nat) : Nat := oracle % maxv

/-- The public key extracted by keyToCertificate's switch on the protobuf key
type: RSA and Ed25519 are supported, everything else is refused.  The
returned key also stands for the crypto.Signer the Go function returns,
identified by its public half. -/
def HostPrivKey.tlsPublicKey : HostPrivKey → Except Err PubKey
  | .rsa n e _ => .ok (.rsa n e)
  | .ed25519 pub => .ok (.ed25519 pub)
  | _ => .error "unsupported key type for TLS"

/-- keyToCertificate (crypto.go): draw a serial below 1<<62, build a CA
template valid on [now-24h, now+180d], refuse unsupported key kinds, and
self-sign.  `snOracle` is the randomness consumed by rand.Int; `now` the
wall-clock instant of this call's time.Now().  Returns (signer, certificate),
the signer modelled by its public key. -/
def keyToCertificate (sk : HostPrivKey) (snOracle : Nat) (now : Int) :
    Except Err (PubKey × Certificate) :=
  let sn := randInt snOracle (2 ^ 62)
  let tmpl : Certificate :=
    { serialNumber := sn
      notBefore := now - 24 * secondsPerHour
      notAfter := now + certValidityPeriod
      isCA := true
      basicConstraintsValid := true }
  match sk.tlsPublicKey with
  | .error e => .error e
  | .ok pub => .ok (pub, createCertificate tmpl pub pub)

/-- An ECDSA private key as produced by ecdsa.GenerateKey: curve, public
point, private scalar. -/
structure ECDSAKey where
  curve : Curve
  x : Nat
  y : Nat
  d : Nat
  deriving DecidableEq, Repr

def ECDSAKey.publicKey (k : ECDSAKey) : PubKey := .ecdsa k.curve k.x k.y

/-- Model of ecdsa.GenerateKey(elliptic.P256(), rand.Reader): the curve is
pinned to P-256, the point and scalar come from the randomness oracle. -/
def ecdsaGenerateKeyP256 (rx ry rd : Nat) : ECDSAKey :=
  { curve := .P256, x := rx, y := ry, d := rd }

/-- tls.ClientAuthType, restricted to the values the code can produce. -/
inductive ClientAuthType where
  | NoClientCert
  | RequireAnyClientCert
  deriving DecidableEq, Repr

/-- One tls.Certificate entry: the presented raw chain (modelled by the
parsed certificates, DER being the identity here) and the private key. -/
structure TLSCertEntry where
  certificate : List Certificate
  privateKey : ECDSAKey
  deriving DecidableEq, Repr

/-- The fields of tls.Config that generateConfig sets. -/
structure TLSConfig where
  serverName : String
  insecureSkipVerify : Bool
  clientAuth : ClientAuthType
  certificates : List TLSCertEntry
  deriving DecidableEq, Repr

/-- const hostname = "quic.ipfs" (mint certificate selection is keyed by
SNI). -/
def hostname : String := "quic.ipfs"

/-- The randomness generateConfig consumes: the host certificate's serial
draw and the ephemeral P-256 key material. -/
structure GenRand where
  snOracle : Nat
  ephX : Nat
  ephY : Nat
  ephD : Nat
  deriving DecidableEq, Repr

/-- generateConfig (crypto.go).  `nowKey` is the instant returned by
time.Now() inside keyToCertificate; `nowEph` the instant returned by the
later time.Now() calls building the ephemeral template (the source reads the
clock separately in the two places). -/
def generateConfig (privKey : HostPrivKey) (r : GenRand) (nowKey nowEph : Int) :
    Except Err TLSConfig :=
  match keyToCertificate privKey r.snOracle nowKey with
  | .error e => .error e
  | .ok (key, hostCert) =>
    let ephemeralKey := ecdsaGenerateKeyP256 r.ephX r.ephY r.ephD
    let certTemplate : Certificate :=
      { dnsNames := [hostname]
        serialNumber := 1
        notBefore := nowEph - 24 * secondsPerHour
        notAfter := nowEph + certValidityPeriod }
    let cert := createCertificate certTemplate ephemeralKey.publicKey key
    .ok
      { serverName := hostname
        insecureSkipVerify := true
        clientAuth := .RequireAnyClientCert
        certificates := [{ certificate := [cert, hostCert], privateKey := ephemeralKey }] }

/-- Canonical serialization of a public key, as used by the peer-identity
collaborator (a typed byte envelope: kind tag followed by key material). -/
def pubKeyBytes : PubKey → List Nat
  | .rsa n e => [0, n, e]
  | .ed25519 bytes => 1 :: bytes
  | .secp256k1 point => [2, point]
  | .ecdsa c x y => [3, (match c with | .P256 => 0 | .P384 => 1 | .P521 => 2), x, y]

/-- A peer ID: the canonical hash of the public-key bytes, compared
byte-level.  The hash is modelled by the injective serialization itself. -/
abbrev PeerID := List Nat

/-- Model of peer.IDFromPublicKey. -/
def idFromPublicKey (k : PubKey) : PeerID := pubKeyBytes k

/-- Model of peer.ID.MatchesPublicKey: derive the ID of the key and compare
with the expected ID. -/
def matchesPublicKey (p : PeerID) (k : PubKey) : Bool :=
  idFromPublicKey k == p

/-- Model of peer.IDFromPrivateKey: the ID of the public half (the external
library supports all key kinds here). -/
def idFromPrivateKey (sk : HostPrivKey) : Except Err PeerID :=
  .ok (idFromPublicKey sk.publicKey)

/-- A UDP socket address. -/
structure UDPAddr where
  ip : String
  port : Nat
  deriving DecidableEq, Repr

/-- A composite multiaddr, kept opaque: the code only threads it through the
address collaborators and stores it on the connection. -/
structure Multiaddr where
  repr : String
  deriving DecidableEq, Repr

/-- A per-family reuse registry.  Its internals (reuse.go) are outside the
given sources; the connection manager only dispatches to it, so it is an
opaque token here and its Listen/Dial are oracles in the callers. -/
structure Reuse where
  tag : Nat
  deriving DecidableEq, Repr

/-- A refcounted UDP socket handle returned by the reuse layer, kept opaque;
transport.Dial only stores it and calls DecreaseCount on it, which the
embedding counts. -/
structure ReuseConn where
  id : Nat
  deriving DecidableEq, Repr

/-- connManager (transport.go): one reuse registry per UDP family. -/
structure ConnManager where
  reuseUDP4 : Reuse
  reuseUDP6 : Reuse
  deriving DecidableEq, Repr

/-- newConnManager: fresh per-family registries. -/
def newConnManager : ConnManager :=
  { reuseUDP4 := { tag := 4 }, reuseUDP6 := { tag := 6 } }

/-- connManager.getReuse: "udp4" and "udp6" map to the per-family
registries, everything else is an invalid network. -/
def ConnManager.getReuse (c : ConnManager) (network : String) : Except Err Reuse :=
  if network = "udp4" then .ok c.reuseUDP4
  else if network = "udp6" then .ok c.reuseUDP6
  else .error "invalid network: must be either udp4 or udp6"

/-- The behaviour of reuse.Listen / reuse.Dial on a given registry, supplied
as an oracle (reuse.go is not among the given sources). -/
abbrev ReuseOracle := Reuse → String → UDPAddr → Except Err ReuseConn

/-- connManager.Listen: dispatch on the network, then reuse.Listen. -/
def ConnManager.listen (c : ConnManager) (network : String) (laddr : UDPAddr)
    (reuseListen : ReuseOracle) : Except Err ReuseConn :=
  match c.getReuse network with
  | .error e => .error e
  | .ok r => reuseListen r network laddr

/-- connManager.Dial: dispatch on the network, then reuse.Dial. -/
def ConnManager.dial (c : ConnManager) (network : String) (raddr : UDPAddr)
    (reuseDial : ReuseOracle) : Except Err ReuseConn :=
  match c.getReuse network with
  | .error e => .error e
  | .ok r => reuseDial r network raddr

/-- The transport (transport.go): host key, derived local peer, shared TLS
config template, connection manager. -/
structure Transport where
  privKey : HostPrivKey
  localPeer : PeerID
  tlsConf : TLSConfig
  connManager : ConnManager
  deriving Repr

/-- NewTransport (transport.go): derive the local peer ID, generate the TLS
config (propagating its failure before anything else happens — in
particular no socket is ever bound here: binding only occurs inside
reuse.Listen / reuse.Dial, which NewTransport never calls), then assemble
the transport. -/
def NewTransport (key : HostPrivKey) (r : GenRand) (nowKey nowEph : Int) :
    Except Err Transport :=
  match idFromPrivateKey key with
  | .error e => .error e
  | .ok localPeer =>
    match generateConfig key r nowKey nowEph with
    | .error e => .error e
    | .ok tlsConf =>
      .ok { privKey := key, localPeer := localPeer, tlsConf := tlsConf,
            connManager := newConnManager }

/-- The parse result of one raw certificate handed to the
VerifyPeerCertificate callback (x509.ParseCertificate may fail). -/
abbrev RawCert := Except Err Certificate

/-- The callback's parsing loop over rawCerts: parse each in order,
returning the first parse error. -/
def parseChain : List RawCert → Except Err (List Certificate)
  | [] => .ok []
  | raw :: rest =>
    match raw with
    | .error e => .error e
    | .ok cert =>
      match parseChain rest with
      | .error e => .error e
      | .ok certs => .ok (cert :: certs)

/-- The per-dial VerifyPeerCertificate closure installed on the cloned TLS
config (transport.go): parse the chain, extract the remote public key with
getRemotePubKey, then require it to match the expected peer.  The Go closure
stores the key into the captured remotePubKey variable and returns nil; the
model returns the stored key. -/
def verifyPeerCertificate (p : PeerID) (rawCerts : List RawCert) :
    Except Err PubKey :=
  match parseChain rawCerts with
  | .error e => .error e
  | .ok chain =>
    match getRemotePubKey chain with
    | .error e => .error e
    | .ok remotePubKey =>
      if matchesPublicKey p remotePubKey then .ok remotePubKey
      else .error "peer IDs don't match"

/-- What the network does when quic.DialContext runs the handshake: either
fail before certificate verification (unreachable peer, cancellation, ...),
or reach verification with the raw certificate chain the remote presented
(the handshake then succeeds iff the installed verifier accepts). -/
inductive QuicNet where
  | fail (e : Err)
  | handshake (rawCerts : List RawCert) (sess : Nat)

/-- The external collaborators transport.Dial consults, as oracles: each
field is the outcome of the corresponding call in the source. -/
structure DialEnv where
  dialArgs : Except Err (String × String)
  resolveUDPAddr : Except Err UDPAddr
  fromQuicMultiaddr : Except Err UDPAddr
  reuseDial : ReuseOracle
  toQuicMultiaddr : Except Err Multiaddr
  quicDial : QuicNet

/-- The connection record transport.Dial builds on success (conn fields, the
back-pointer to the transport itself omitted). -/
structure Conn where
  sess : Nat
  privKey : HostPrivKey
  localPeer : PeerID
  localMultiaddr : Multiaddr
  remotePubKey : PubKey
  remotePeerID : PeerID
  remoteMultiaddr : Multiaddr
  deriving Repr

/-- The outcome of a dial: the returned value and how many times
pconn.DecreaseCount() was called on the synchronous error paths (the
deferred decrement performed by the goroutine when a successful session
later terminates is not part of the dial itself). -/
structure DialResult where
  result : Except Err Conn
  decreaseCalls : Nat
  deriving Repr

/-- transport.Dial (transport.go): resolve the address, obtain a ReuseConn
from the connection manager, derive the local multiaddr, run the QUIC
handshake with the per-dial verifier for `p` installed on a clone of the
TLS config, and wrap the session.  Failures after the ReuseConn is obtained
call DecreaseCount before returning. -/
def Transport.dial (t : Transport) (raddr : Multiaddr) (p : PeerID)
    (env : DialEnv) : DialResult :=
  match env.dialArgs with
  | .error e => { result := .error e, decreaseCalls := 0 }
  | .ok (network, _host) =>
    match env.resolveUDPAddr with
    | .error e => { result := .error e, decreaseCalls := 0 }
    | .ok udpAddr =>
      match env.fromQuicMultiaddr with
      | .error e => { result := .error e, decreaseCalls := 0 }
      | .ok _addr =>
        match t.connManager.dial network udpAddr env.reuseDial with
        | .error e => { result := .error e, decreaseCalls := 0 }
        | .ok _pconn =>
          match env.toQuicMultiaddr with
          | .error e => { result := .error e, decreaseCalls := 1 }
          | .ok localMultiaddr =>
            match env.quicDial with
            | .fail e => { result := .error e, decreaseCalls := 1 }
            | .handshake rawCerts sess =>
              match verifyPeerCertificate p rawCerts with
              | .error e => { result := .error e, decreaseCalls := 1 }
              | .ok remotePubKey =>
                { result := .ok
                    { sess := sess
                      privKey := t.privKey
                      localPeer := t.localPeer
                      localMultiaddr := localMultiaddr
                      remotePubKey := remotePubKey
                      remotePeerID := p
                      remoteMultiaddr := raddr }
                  decreaseCalls := 0 }

/-- Whether the dial got as far as obtaining its ReuseConn: the address
steps succeeded and connManager.Dial returned a connection. -/
def dialReachedPconn (t : Transport) (env : DialEnv) : Bool :=
  match env.dialArgs with
  | .error _ => false
  | .ok (network, _host) =>
    match env.resolveUDPAddr with
    | .error _ => false
    | .ok udpAddr =>
      match env.fromQuicMultiaddr with
      | .error _ => false
      | .ok _ =>
        match t.connManager.dial network udpAddr env.reuseDial with
        | .error _ => false
        | .ok _ => true

/-! ## Helper lemmas -/

/-- The normal form of the host certificate keyToCertificate produces. -/
def hostCertFor (key : PubKey) (snOracle : Nat) (now : Int) : Certificate :=
  { serialNumber := snOracle % 2 ^ 62
    notBefore := now - 24 * secondsPerHour
    notAfter := now + certValidityPeriod
    isCA := true
    basicConstraintsValid := true
    publicKey := key
    signerKey := key }

/-- Characterisation of a successful keyToCertificate run. -/
theorem keyToCertificate_ok_iff (sk : HostPrivKey) (snOracle : Nat) (now : Int)
    (key : PubKey) (cert : Certificate) :
    keyToCertificate sk snOracle now = .ok (key, cert) ↔
      sk.tlsPublicKey = .ok key ∧ cert = hostCertFor key snOracle now := by
  cases htls : sk.tlsPublicKey with
  | error e => simp [keyToCertificate, htls]
  | ok pub =>
    simp only [keyToCertificate, htls, randInt, createCertificate, hostCertFor]
    constructor
    · intro h
      injection h with h
      injection h with h1 h2
      subst h1
      exact ⟨rfl, h2.symm⟩
    · rintro ⟨h1, h2⟩
      injection h1 with h1
      subst h1
      subst h2
      rfl

/-- The normal form of the ephemeral certificate generateConfig produces. -/
def ephCertFor (r : GenRand) (now : Int) (hostKey : PubKey) : Certificate :=
  { serialNumber := 1
    dnsNames := [hostname]
    notBefore := now - 24 * secondsPerHour
    notAfter := now + certValidityPeriod
    publicKey := (ecdsaGenerateKeyP256 r.ephX r.ephY r.ephD).publicKey
    signerKey := hostKey }

/-- The normal form of the single tls.Certificate entry generateConfig
builds. -/
def tlsEntryFor (r : GenRand) (nowKey nowEph : Int) (key : PubKey) : TLSCertEntry :=
  { certificate := [ephCertFor r nowEph key, hostCertFor key r.snOracle nowKey]
    privateKey := ecdsaGenerateKeyP256 r.ephX r.ephY r.ephD }

/-- The normal form of the TLS config generateConfig builds. -/
def tlsConfigFor (r : GenRand) (nowKey nowEph : Int) (key : PubKey) : TLSConfig :=
  { serverName := hostname
    insecureSkipVerify := true
    clientAuth := .RequireAnyClientCert
    certificates := [tlsEntryFor r nowKey nowEph key] }

/-- Characterisation of a successful generateConfig run. -/
theorem generateConfig_ok_iff (sk : HostPrivKey) (r : GenRand)
    (nowKey nowEph : Int) (conf : TLSConfig) :
    generateConfig sk r nowKey nowEph = .ok conf ↔
      ∃ key, sk.tlsPublicKey = .ok key ∧ conf = tlsConfigFor r nowKey nowEph key := by
  cases htls : sk.tlsPublicKey with
  | error e => simp [generateConfig, keyToCertificate, htls]
  | ok pub =>
    simp only [generateConfig, keyToCertificate, htls, randInt, createCertificate,
      ephCertFor, hostCertFor, ECDSAKey.publicKey, tlsConfigFor, tlsEntryFor]
    constructor
    · intro h
      injection h with h
      exact ⟨pub, rfl, h.symm⟩
    · rintro ⟨key, h1, h2⟩
      injection h1 with h1
      subst h1
      subst h2
      rfl

/-! ## Claim theorems -/

/-- C2: getRemotePubKey errors on every chain whose length is not 2, errors
on every 2-chain whose first certificate does not verify under a root pool
holding only the second, and returns a key only when the chain has length 2
and that verification succeeds. -/
theorem getRemotePubKey_chain_conditions (chain : List Certificate)
    (c0 c1 : Certificate) :
    (chain.length ≠ 2 → ∃ e, getRemotePubKey chain = .error e) ∧
    (certVerify c0 c1 = false → ∃ e, getRemotePubKey [c0, c1] = .error e) ∧
    (∀ k, getRemotePubKey chain = .ok k →
      chain.length = 2 ∧ ∃ d0 d1, chain = [d0, d1] ∧ certVerify d0 d1 = true) := by
  refine ⟨?_, ?_, ?_⟩
  · intro hlen
    rcases chain with _ | ⟨a, _ | ⟨b, _ | ⟨c, rest⟩⟩⟩
    · exact ⟨_, rfl⟩
    · exact ⟨_, rfl⟩
    · exact absurd rfl hlen
    · exact ⟨_, rfl⟩
  · intro hv
    refine ⟨"certificate chain verification failed", ?_⟩
    simp [getRemotePubKey, hv]
  · intro k hk
    rcases chain with _ | ⟨d0, _ | ⟨d1, _ | ⟨d2, rest⟩⟩⟩
    · simp [getRemotePubKey] at hk
    · simp [getRemotePubKey] at hk
    · refine ⟨rfl, d0, d1, rfl, ?_⟩
      by_cases hv : certVerify d0 d1 = true
      · exact hv
      · simp [getRemotePubKey, hv] at hk
    · simp [getRemotePubKey] at hk

/-- Witness for C2: the empty chain is rejected for its length. -/
theorem getRemotePubKey_chain_conditions_witness :
    ∃ e, getRemotePubKey ([] : List Certificate) = .error e :=
  (getRemotePubKey_chain_conditions [] {} {}).1 (by decide)

/-- C3 counterexample: no chain whose host certificate carries an ECDSA
public key is ever accepted by getRemotePubKey — the claim that some such
chain succeeds is false. -/
theorem ecdsa_chain_never_accepted :
    ¬ ∃ (c0 c1 : Certificate) (cu : Curve) (x y : Nat) (k : PubKey),
        c1.publicKey = .ecdsa cu x y ∧ getRemotePubKey [c0, c1] = .ok k := by
  rintro ⟨c0, c1, cu, x, y, k, hpk, hok⟩
  by_cases hv : certVerify c0 c1 = true
  · simp [getRemotePubKey, hv, hpk] at hok
  · simp [getRemotePubKey, hv] at hok

/-- C3 (amended): the chain verifier rejects ECDSA public keys in the host
certificate just as TLS-config construction rejects ECDSA host keys — the
two paths are symmetric, both refusing ECDSA. -/
theorem ecdsa_rejected_on_both_paths (c0 c1 : Certificate) (cu : Curve)
    (x y : Nat) (hpk : c1.publicKey = .ecdsa cu x y)
    (sk : HostPrivKey) (hsk : sk.keyType = .ECDSA) (snOracle : Nat) (now : Int) :
    (∃ e, getRemotePubKey [c0, c1] = .error e) ∧
    (∃ e, keyToCertificate sk snOracle now = .error e) := by
  constructor
  · by_cases hv : certVerify c0 c1 = true
    · refine ⟨"unknown key type", ?_⟩
      simp [getRemotePubKey, hv, hpk]
    · refine ⟨"certificate chain verification failed", ?_⟩
      simp [getRemotePubKey, hv]
  · cases sk with
    | rsa n e d => simp [HostPrivKey.keyType] at hsk
    | ed25519 pub => simp [HostPrivKey.keyType] at hsk
    | secp256k1 d => simp [HostPrivKey.keyType] at hsk
    | ecdsa c px py d =>
      refine ⟨"unsupported key type for TLS", ?_⟩
      simp [keyToCertificate, HostPrivKey.tlsPublicKey]

/-- Witness for C3's amended theorem: a concrete ECDSA-host chain and a
concrete ECDSA host key, both rejected. -/
theorem ecdsa_rejected_on_both_paths_witness :
    (∃ e, getRemotePubKey
        [{ signerKey := .ecdsa .P256 1 2 },
         { publicKey := .ecdsa .P256 1 2 }] = .error e) ∧
    (∃ e, keyToCertificate (.ecdsa .P256 1 2 3) 0 0 = .error e) :=
  ecdsa_rejected_on_both_paths { signerKey := .ecdsa .P256 1 2 }
    { publicKey := .ecdsa .P256 1 2 } .P256 1 2 rfl
    (.ecdsa .P256 1 2 3) rfl 0 0

/-- C5: the host certificate is self-signed by the host key, CA-flagged,
has serial equal to the random draw folded into [0, 2^62) (hence below
2^62), validity window [now-24h, now+180d], and no DNS names (the template
sets none, so there are no SANs). -/
theorem keyToCertificate_host_cert (sk : HostPrivKey) (snOracle : Nat)
    (now : Int) (key : PubKey) (cert : Certificate)
    (h : keyToCertificate sk snOracle now = .ok (key, cert)) :
    sk.tlsPublicKey = .ok key ∧
    cert.publicKey = key ∧
    cert.signerKey = key ∧
    cert.isCA = true ∧
    cert.basicConstraintsValid = true ∧
    cert.serialNumber = snOracle % 2 ^ 62 ∧
    cert.serialNumber < 2 ^ 62 ∧
    cert.notBefore = now - 24 * secondsPerHour ∧
    cert.notAfter = now + certValidityPeriod ∧
    cert.dnsNames = [] := by
  rw [keyToCertificate_ok_iff] at h
  obtain ⟨htls, hcert⟩ := h
  subst hcert
  refine ⟨htls, rfl, rfl, rfl, rfl, rfl, ?_, rfl, rfl, rfl⟩
  exact Nat.mod_lt _ (by norm_num)

/-- Witness for C5: a concrete Ed25519 host key, serial oracle 5, clock 0. -/
theorem keyToCertificate_host_cert_witness :
    keyToCertificate (.ed25519 [7]) 5 0 =
      .ok (.ed25519 [7], hostCertFor (.ed25519 [7]) 5 0) ∧
    (hostCertFor (.ed25519 [7]) 5 0).isCA = true ∧
    (hostCertFor (.ed25519 [7]) 5 0).serialNumber < 2 ^ 62 := by
  have h : keyToCertificate (.ed25519 [7]) 5 0 =
      .ok (.ed25519 [7], hostCertFor (.ed25519 [7]) 5 0) := by
    rw [keyToCertificate_ok_iff]
    exact ⟨rfl, rfl⟩
  have hc := keyToCertificate_host_cert (.ed25519 [7]) 5 0 (.ed25519 [7])
    (hostCertFor (.ed25519 [7]) 5 0) h
  exact ⟨h, hc.2.2.2.1, hc.2.2.2.2.2.2.1⟩

/-- C4: the ephemeral certificate has serial 1, exactly the placeholder DNS
name, is signed by the host key (the self-signed host certificate's subject
key), carries the freshly generated P-256 ECDSA public key, and — when the
two clock reads of generateConfig coincide — its validity window equals the
host certificate's. -/
theorem generateConfig_ephemeral_cert (sk : HostPrivKey) (r : GenRand)
    (nowKey nowEph : Int) (hnow : nowKey = nowEph) (conf : TLSConfig)
    (h : generateConfig sk r nowKey nowEph = .ok conf) :
    ∃ entry eph host key,
      sk.tlsPublicKey = .ok key ∧
      conf.certificates = [entry] ∧
      entry.certificate = [eph, host] ∧
      eph.serialNumber = 1 ∧
      eph.dnsNames = [hostname] ∧
      eph.signerKey = key ∧
      host.publicKey = key ∧
      eph.publicKey = PubKey.ecdsa .P256 r.ephX r.ephY ∧
      eph.notBefore = host.notBefore ∧
      eph.notAfter = host.notAfter := by
  rw [generateConfig_ok_iff] at h
  obtain ⟨key, htls, hconf⟩ := h
  subst hconf
  subst hnow
  exact ⟨_, _, _, key, htls, rfl, rfl, rfl, rfl, rfl, rfl, rfl, rfl, rfl⟩

/-- Witness for C4: Ed25519 host key, both clock reads at 0. -/
theorem generateConfig_ephemeral_cert_witness :
    generateConfig (.ed25519 [7]) ⟨5, 1, 2, 3⟩ 0 0 =
      .ok (tlsConfigFor ⟨5, 1, 2, 3⟩ 0 0 (.ed25519 [7])) ∧
    ∃ entry eph host key,
      (HostPrivKey.ed25519 [7]).tlsPublicKey = .ok key ∧
      (tlsConfigFor ⟨5, 1, 2, 3⟩ 0 0 (.ed25519 [7])).certificates = [entry] ∧
      entry.certificate = [eph, host] ∧
      eph.serialNumber = 1 ∧
      eph.dnsNames = [hostname] ∧
      eph.signerKey = key ∧
      host.publicKey = key ∧
      eph.publicKey = PubKey.ecdsa .P256 1 2 ∧
      eph.notBefore = host.notBefore ∧
      eph.notAfter = host.notAfter :=
  ⟨rfl, generateConfig_ephemeral_cert (.ed25519 [7]) ⟨5, 1, 2, 3⟩ 0 0 rfl
    (tlsConfigFor ⟨5, 1, 2, 3⟩ 0 0 (.ed25519 [7])) rfl⟩

/-- C6: for every supported host key generateConfig succeeds, with server
name the placeholder DNS name, built-in verification disabled, a client
certificate required, the chain presented as [ephemeral, host] in that
order, and the generated ephemeral key as the private key. -/
theorem generateConfig_tls_fields (sk : HostPrivKey) (r : GenRand)
    (nowKey nowEph : Int)
    (hsk : sk.keyType = .RSA ∨ sk.keyType = .Ed25519) :
    ∃ conf key hostCert ephCert entry,
      generateConfig sk r nowKey nowEph = .ok conf ∧
      keyToCertificate sk r.snOracle nowKey = .ok (key, hostCert) ∧
      conf.serverName = hostname ∧
      conf.insecureSkipVerify = true ∧
      conf.clientAuth = .RequireAnyClientCert ∧
      conf.certificates = [entry] ∧
      entry.certificate = [ephCert, hostCert] ∧
      entry.privateKey = ecdsaGenerateKeyP256 r.ephX r.ephY r.ephD := by
  have hkey : ∃ key, sk.tlsPublicKey = .ok key := by
    cases sk with
    | rsa n e d => exact ⟨_, rfl⟩
    | ed25519 pub => exact ⟨_, rfl⟩
    | ecdsa c x y d => simp [HostPrivKey.keyType] at hsk
    | secp256k1 d => simp [HostPrivKey.keyType] at hsk
  obtain ⟨key, hkey⟩ := hkey
  refine ⟨tlsConfigFor r nowKey nowEph key, key, hostCertFor key r.snOracle nowKey,
    ephCertFor r nowEph key, tlsEntryFor r nowKey nowEph key, ?_, ?_, rfl, rfl, rfl,
    rfl, rfl, rfl⟩
  · exact (generateConfig_ok_iff sk r nowKey nowEph _).mpr ⟨key, hkey, rfl⟩
  · exact (keyToCertificate_ok_iff sk r.snOracle nowKey key _).mpr ⟨hkey, rfl⟩

/-- Witness for C6: a concrete Ed25519 host key is supported. -/
theorem generateConfig_tls_fields_witness :
    ((HostPrivKey.ed25519 [7]).keyType = .RSA ∨
      (HostPrivKey.ed25519 [7]).keyType = .Ed25519) ∧
    ∃ conf key hostCert ephCert entry,
      generateConfig (.ed25519 [7]) ⟨5, 1, 2, 3⟩ 0 0 = .ok conf ∧
      keyToCertificate (.ed25519 [7]) 5 0 = .ok (key, hostCert) ∧
      conf.serverName = hostname ∧
      conf.insecureSkipVerify = true ∧
      conf.clientAuth = .RequireAnyClientCert ∧
      conf.certificates = [entry] ∧
      entry.certificate = [ephCert, hostCert] ∧
      entry.privateKey = ecdsaGenerateKeyP256 1 2 3 :=
  ⟨Or.inr rfl, generateConfig_tls_fields (.ed25519 [7]) ⟨5, 1, 2, 3⟩ 0 0 (Or.inr rfl)⟩

/-- C7: a host key that is neither RSA nor Ed25519 is refused by
keyToCertificate, and NewTransport propagates the failure (no transport is
built; socket binding only ever happens inside reuse.Listen/reuse.Dial,
which NewTransport never invokes). -/
theorem newTransport_unsupported_key (key : HostPrivKey)
    (h1 : key.keyType ≠ .RSA) (h2 : key.keyType ≠ .Ed25519)
    (r : GenRand) (nowKey nowEph : Int) (snOracle : Nat) (now : Int) :
    keyToCertificate key snOracle now = .error "unsupported key type for TLS" ∧
    NewTransport key r nowKey nowEph = .error "unsupported key type for TLS" := by
  have htls : key.tlsPublicKey = .error "unsupported key type for TLS" := by
    cases key with
    | rsa n e d => simp [HostPrivKey.keyType] at h1
    | ed25519 pub => simp [HostPrivKey.keyType] at h2
    | ecdsa c x y d => rfl
    | secp256k1 d => rfl
  constructor
  · simp [keyToCertificate, htls]
  · simp [NewTransport, idFromPrivateKey, generateConfig, keyToCertificate, htls]

/-- Witness for C7: a concrete P-256 ECDSA host key. -/
theorem newTransport_unsupported_key_witness :
    (HostPrivKey.ecdsa .P256 1 2 3).keyType ≠ .RSA ∧
    (HostPrivKey.ecdsa .P256 1 2 3).keyType ≠ .Ed25519 ∧
    keyToCertificate (.ecdsa .P256 1 2 3) 0 0 =
      .error "unsupported key type for TLS" ∧
    NewTransport (.ecdsa .P256 1 2 3) ⟨0, 0, 0, 0⟩ 0 0 =
      .error "unsupported key type for TLS" := by
  refine ⟨by decide, by decide, ?_⟩
  exact newTransport_unsupported_key (.ecdsa .P256 1 2 3) (by decide) (by decide)
    ⟨0, 0, 0, 0⟩ 0 0 0 0

/-- C8: the connection manager maps exactly "udp4" and "udp6" to the two
per-family registries and rejects every other network string, so both
connManager.Listen and connManager.Dial fail on non-UDP-family networks. -/
theorem connManager_network_dispatch (c : ConnManager) (network : String)
    (laddr raddr : UDPAddr) (oListen oDial : ReuseOracle)
    (h4 : network ≠ "udp4") (h6 : network ≠ "udp6") :
    c.getReuse "udp4" = .ok c.reuseUDP4 ∧
    c.getReuse "udp6" = .ok c.reuseUDP6 ∧
    c.getReuse network = .error "invalid network: must be either udp4 or udp6" ∧
    c.listen network laddr oListen =
      .error "invalid network: must be either udp4 or udp6" ∧
    c.dial network raddr oDial =
      .error "invalid network: must be either udp4 or udp6" := by
  have hgr : c.getReuse network =
      .error "invalid network: must be either udp4 or udp6" := by
    simp [ConnManager.getReuse, h4, h6]
  have h64 : ("udp6" : String) ≠ "udp4" := by decide
  refine ⟨?_, ?_, hgr, ?_, ?_⟩
  · simp [ConnManager.getReuse]
  · simp [ConnManager.getReuse, h64]
  · simp [ConnManager.listen, hgr]
  · simp [ConnManager.dial, hgr]

/-- Witness for C8: the network string "tcp" is rejected. -/
theorem connManager_network_dispatch_witness :
    ("tcp" : String) ≠ "udp4" ∧ ("tcp" : String) ≠ "udp6" ∧
    newConnManager.dial "tcp" { ip := "1.1.1.1", port := 1234 }
        (fun _ _ _ => .ok { id := 0 }) =
      .error "invalid network: must be either udp4 or udp6" := by
  refine ⟨by decide, by decide, ?_⟩
  exact (connManager_network_dispatch newConnManager "tcp"
    { ip := "0.0.0.0", port := 0 } { ip := "1.1.1.1", port := 1234 }
    (fun _ _ _ => .ok { id := 0 }) (fun _ _ _ => .ok { id := 0 })
    (by decide) (by decide)).2.2.2.2

/-- The connection record a successful dial builds. -/
def connFor (t : Transport) (raddr : Multiaddr) (p : PeerID)
    (localMultiaddr : Multiaddr) (k : PubKey) (sess : Nat) : Conn :=
  { sess := sess
    privKey := t.privKey
    localPeer := t.localPeer
    localMultiaddr := localMultiaddr
    remotePubKey := k
    remotePeerID := p
    remoteMultiaddr := raddr }

/-- Characterisation of a successful dial: every step succeeded and the
returned connection is the record the source builds. -/
theorem dial_ok_iff (t : Transport) (raddr : Multiaddr) (p : PeerID)
    (env : DialEnv) (c : Conn) :
    (t.dial raddr p env).result = .ok c ↔
      ∃ network host udpAddr addr pconn localMultiaddr rawCerts sess k,
        env.dialArgs = .ok (network, host) ∧
        env.resolveUDPAddr = .ok udpAddr ∧
        env.fromQuicMultiaddr = .ok addr ∧
        t.connManager.dial network udpAddr env.reuseDial = .ok pconn ∧
        env.toQuicMultiaddr = .ok localMultiaddr ∧
        env.quicDial = .handshake rawCerts sess ∧
        verifyPeerCertificate p rawCerts = .ok k ∧
        c = connFor t raddr p localMultiaddr k sess := by
  obtain ⟨da, ru, fq, rd, tq, qd⟩ := env
  rcases da with e | ⟨network, host⟩
  · simp [Transport.dial]
  rcases ru with e | udpAddr
  · simp [Transport.dial]
  rcases fq with e | addr
  · simp [Transport.dial]
  rcases hcd : ConnManager.dial t.connManager network udpAddr rd with e | pconn
  · simp [Transport.dial, hcd]
  rcases tq with e | localMultiaddr
  · simp [Transport.dial, hcd]
  rcases qd with e | ⟨rawCerts, sess⟩
  · simp [Transport.dial, hcd]
  rcases hv : verifyPeerCertificate p rawCerts with e | k
  · simp [Transport.dial, hcd, hv]
  · simp only [Transport.dial, hcd, hv, connFor]
    constructor
    · intro h
      injection h with h
      exact ⟨network, host, udpAddr, addr, pconn, localMultiaddr, rawCerts, sess, k,
        rfl, rfl, rfl, hcd, rfl, rfl, hv, h.symm⟩
    · rintro ⟨n2, h2, u2, a2, p2, l2, r2, s2, k2, hda, hru, hfq, hc2, htq, hqd, hv2, hc⟩
      injection hda with hda
      injection hda with hda1 hda2
      subst hda1
      injection hru with hru
      subst hru
      injection htq with htq
      subst htq
      injection hqd with hqd1 hqd2
      subst hqd1
      subst hqd2
      rw [hv] at hv2
      injection hv2 with hv2
      subst hv2
      subst hc
      rfl

/-- A failure of the dial after its ReuseConn was obtained performs exactly
one DecreaseCount; a success performs none synchronously (the release is
deferred to session termination). -/
theorem dial_decreaseCalls_split (t : Transport) (raddr : Multiaddr)
    (p : PeerID) (env : DialEnv) (hp : dialReachedPconn t env = true) :
    ((∃ e, (t.dial raddr p env).result = .error e) ∧
      (t.dial raddr p env).decreaseCalls = 1) ∨
    ((∃ c, (t.dial raddr p env).result = .ok c) ∧
      (t.dial raddr p env).decreaseCalls = 0) := by
  obtain ⟨da, ru, fq, rd, tq, qd⟩ := env
  rcases da with e | ⟨network, host⟩
  · simp [dialReachedPconn] at hp
  rcases ru with e | udpAddr
  · simp [dialReachedPconn] at hp
  rcases fq with e | addr
  · simp [dialReachedPconn] at hp
  rcases hcd : ConnManager.dial t.connManager network udpAddr rd with e | pconn
  · simp [dialReachedPconn, hcd] at hp
  rcases tq with e | localMultiaddr
  · exact Or.inl ⟨⟨e, by simp [Transport.dial, hcd]⟩, by simp [Transport.dial, hcd]⟩
  rcases qd with e | ⟨rawCerts, sess⟩
  · exact Or.inl ⟨⟨e, by simp [Transport.dial, hcd]⟩, by simp [Transport.dial, hcd]⟩
  rcases hv : verifyPeerCertificate p rawCerts with e | k
  · exact Or.inl ⟨⟨e, by simp [Transport.dial, hcd, hv]⟩,
      by simp [Transport.dial, hcd, hv]⟩
  · refine Or.inr ⟨⟨connFor t raddr p localMultiaddr k sess, ?_⟩, ?_⟩ <;>
      simp [Transport.dial, hcd, hv, connFor]

/-- C1: if the key extracted from the remote chain does not match the
expected peer, the per-dial verifier errors and the dial never returns a
session; and a dial returns a session only when the chain verification
succeeded and the extracted key matches the expected peer. -/
theorem dial_identity_binding (t : Transport) (raddr : Multiaddr) (p : PeerID)
    (env : DialEnv) :
    (∀ rawCerts sess chain k,
        env.quicDial = .handshake rawCerts sess →
        parseChain rawCerts = .ok chain →
        getRemotePubKey chain = .ok k →
        matchesPublicKey p k = false →
        verifyPeerCertificate p rawCerts = .error "peer IDs don't match" ∧
        ∀ c, (t.dial raddr p env).result ≠ .ok c) ∧
    (∀ c, (t.dial raddr p env).result = .ok c →
        ∃ rawCerts sess chain,
          env.quicDial = .handshake rawCerts sess ∧
          parseChain rawCerts = .ok chain ∧
          getRemotePubKey chain = .ok c.remotePubKey ∧
          matchesPublicKey p c.remotePubKey = true) := by
  constructor
  · intro rawCerts sess chain k hqd hpc hkey hmatch
    have hverr : verifyPeerCertificate p rawCerts = .error "peer IDs don't match" := by
      simp [verifyPeerCertificate, hpc, hkey, hmatch]
    refine ⟨hverr, ?_⟩
    intro c hok
    rw [dial_ok_iff] at hok
    obtain ⟨n2, h2, u2, a2, p2, l2, r2, s2, k2, _, _, _, _, _, hqd2, hv2, _⟩ := hok
    rw [hqd] at hqd2
    injection hqd2 with hr2 hs2
    subst hr2
    rw [hverr] at hv2
    exact Except.noConfusion hv2
  · intro c hok
    rw [dial_ok_iff] at hok
    obtain ⟨n2, h2, u2, a2, p2, l2, r2, s2, k2, _, _, _, _, _, hqd2, hv2, hc⟩ := hok
    have hrk : c.remotePubKey = k2 := by rw [hc]; rfl
    rcases hpc : parseChain r2 with e | chain
    · simp only [verifyPeerCertificate, hpc] at hv2
      exact Except.noConfusion hv2
    · simp only [verifyPeerCertificate, hpc] at hv2
      rcases hgk : getRemotePubKey chain with e | k3
      · simp only [hgk] at hv2
        exact Except.noConfusion hv2
      · simp only [hgk] at hv2
        by_cases hm : matchesPublicKey p k3 = true
        · rw [if_pos hm] at hv2
          injection hv2 with hv2
          refine ⟨r2, s2, chain, hqd2, hpc, ?_, ?_⟩
          · rw [hrk, ← hv2]
            exact hgk
          · rw [hrk, ← hv2]
            exact hm
        · rw [if_neg hm] at hv2
          exact Except.noConfusion hv2

/-- C9: every dial failure after the ReuseConn was obtained calls
DecreaseCount exactly once before the error is returned. -/
theorem dial_error_releases_reuse_ref (t : Transport) (raddr : Multiaddr)
    (p : PeerID) (env : DialEnv) (hp : dialReachedPconn t env = true)
    (e : Err) (herr : (t.dial raddr p env).result = .error e) :
    (t.dial raddr p env).decreaseCalls = 1 := by
  rcases dial_decreaseCalls_split t raddr p env hp with ⟨_, hdec⟩ | ⟨⟨c, hok⟩, _⟩
  · exact hdec
  · rw [herr] at hok
    exact Except.noConfusion hok

/-- C10: a successful dial records the expected peer as remote peer ID, the
verifier-extracted key as remote public key, the dialed multiaddr as remote
address, and the transport's own identity as the local side. -/
theorem dial_success_identities (t : Transport) (raddr : Multiaddr)
    (p : PeerID) (env : DialEnv) (c : Conn)
    (h : (t.dial raddr p env).result = .ok c) :
    c.remotePeerID = p ∧
    c.remoteMultiaddr = raddr ∧
    c.localPeer = t.localPeer ∧
    c.privKey = t.privKey ∧
    ∃ rawCerts sess,
      env.quicDial = .handshake rawCerts sess ∧
      verifyPeerCertificate p rawCerts = .ok c.remotePubKey := by
  rw [dial_ok_iff] at h
  obtain ⟨n2, h2, u2, a2, p2, l2, r2, s2, k2, _, _, _, _, _, hqd, hv, hc⟩ := h
  subst hc
  exact ⟨rfl, rfl, rfl, rfl, r2, s2, hqd, hv⟩

/-! ## Concrete material for the dial witnesses -/

/-- A concrete self-signed Ed25519 host certificate. -/
def hostCertEx : Certificate :=
  { publicKey := .ed25519 [9]
    signerKey := .ed25519 [9]
    isCA := true
    basicConstraintsValid := true }

/-- A concrete ephemeral certificate signed by the host key above. -/
def ephCertEx : Certificate :=
  { serialNumber := 1
    dnsNames := [hostname]
    publicKey := .ecdsa .P256 1 2
    signerKey := .ed25519 [9] }

/-- A concrete transport owning the Ed25519 host key above. -/
def transportEx : Transport :=
  { privKey := .ed25519 [9]
    localPeer := idFromPublicKey (.ed25519 [9])
    tlsConf :=
      { serverName := hostname
        insecureSkipVerify := true
        clientAuth := .RequireAnyClientCert
        certificates := [] }
    connManager := newConnManager }

/-- A concrete dial destination. -/
def raddrEx : Multiaddr := { repr := "/ip4/127.0.0.1/udp/4001/quic" }

/-- A dial environment in which every collaborator succeeds and the remote
presents the chain [ephCertEx, hostCertEx]. -/
def envEx : DialEnv :=
  { dialArgs := .ok ("udp4", "127.0.0.1:4001")
    resolveUDPAddr := .ok { ip := "127.0.0.1", port := 4001 }
    fromQuicMultiaddr := .ok { ip := "127.0.0.1", port := 4001 }
    reuseDial := fun _ _ _ => .ok { id := 1 }
    toQuicMultiaddr := .ok { repr := "/ip4/0.0.0.0/udp/50000/quic" }
    quicDial := .handshake [.ok ephCertEx, .ok hostCertEx] 0 }

/-- The same environment except that the QUIC handshake fails on the
network before certificate verification. -/
def envFailEx : DialEnv := { envEx with quicDial := .fail "handshake timeout" }

/-- Witness for C1: dialing with expected peer [1, 8] while the remote's
key derives peer [1, 9] makes the verifier error and the dial fail. -/
theorem dial_identity_binding_witness :
    matchesPublicKey [1, 8] (.ed25519 [9]) = false ∧
    verifyPeerCertificate [1, 8] [.ok ephCertEx, .ok hostCertEx] =
      .error "peer IDs don't match" ∧
    ∀ c, (transportEx.dial raddrEx [1, 8] envEx).result ≠ .ok c := by
  have h := (dial_identity_binding transportEx raddrEx [1, 8] envEx).1
    [.ok ephCertEx, .ok hostCertEx] 0 [ephCertEx, hostCertEx] (.ed25519 [9])
    rfl rfl rfl (by decide)
  exact ⟨by decide, h.1, h.2⟩

/-- Witness for C9: a QUIC handshake failure after the ReuseConn was
obtained decrements exactly once. -/
theorem dial_error_releases_reuse_ref_witness :
    dialReachedPconn transportEx envFailEx = true ∧
    (transportEx.dial raddrEx [1, 9] envFailEx).result =
      .error "handshake timeout" ∧
    (transportEx.dial raddrEx [1, 9] envFailEx).decreaseCalls = 1 :=
  ⟨rfl, rfl, dial_error_releases_reuse_ref transportEx raddrEx [1, 9] envFailEx
    rfl "handshake timeout" rfl⟩

/-- The connection the successful witness dial returns. -/
def connEx : Conn :=
  connFor transportEx raddrEx [1, 9]
    { repr := "/ip4/0.0.0.0/udp/50000/quic" } (.ed25519 [9]) 0

/-- Witness for C10: a successful dial to peer [1, 9] records the expected
identities. -/
theorem dial_success_identities_witness :
    (transportEx.dial raddrEx [1, 9] envEx).result = .ok connEx ∧
    connEx.remotePeerID = [1, 9] ∧
    connEx.remoteMultiaddr = raddrEx ∧
    connEx.localPeer = transportEx.localPeer ∧
    connEx.privKey = transportEx.privKey := by
  have h : (transportEx.dial raddrEx [1, 9] envEx).result = .ok connEx := rfl
  have hi := dial_success_identities transportEx raddrEx [1, 9] envEx connEx h
  exact ⟨h, hi.1, hi.2.1, hi.2.2.1, hi.2.2.2.1⟩

end Libp2pQuic
